import Mathlib

/-!
Shallow embedding of the kill-tracker backend (src/main.py, src/models.py).

HTTP handlers are modelled as pure functions over an explicit database
state.  External effects are parameters: the network is a function from
URL to an optional fetched page, database-commit success is a Boolean,
and `uuid.uuid4()` / `datetime` parsing and rendering are supplied as
inputs.  Exceptions raised by handlers (FastAPI `HTTPException` as well
as uncaught Python exceptions, which FastAPI surfaces as a 500 reply)
are modelled with `Except HTTPError`.
-/

namespace KillTracker

/-- Error reply carrying an HTTP status code and a detail string
(models FastAPI `HTTPException` and the generic 500 reply FastAPI
produces for an uncaught exception). -/
structure HTTPError where
  status : Nat
  detail : String
deriving Repr, DecidableEq

/-- `HTTPException(401, "Missing or invalid Authorization header")`, main.py line 42. -/
def unauthorizedHeader : HTTPError :=
  ⟨401, "Missing or invalid Authorization header"⟩

/-- `HTTPException(401, "Invalid API key")`, main.py line 47. -/
def unauthorizedKey : HTTPError :=
  ⟨401, "Invalid API key"⟩

/-- A row of the `api_keys` table (models.py `APIKey`); the creation
timestamp plays no role in any handler and is omitted. -/
structure APIKey where
  key : String
  discord_id : String
deriving Repr, DecidableEq

/-- `List.partition`-style model of Python `s.partition(" ")` on the
character list: the part before the first space and the part after it;
when no space occurs the second component is empty, like Python's
`("s", "", "")`. -/
def partitionSpaceChars : List Char → List Char × List Char
  | [] => ([], [])
  | c :: cs =>
    if c = ' ' then ([], cs)
    else
      let p := partitionSpaceChars cs
      (c :: p.1, p.2)

/-- Python `authorization.partition(" ")` (main.py line 40), keeping the
two interesting components (scheme, token). -/
def pyPartitionSpace (s : String) : String × String :=
  let p := partitionSpaceChars s.toList
  (String.mk p.1, String.mk p.2)

/-- Python `str.lower()` (ASCII model, which covers the literal
comparison against "bearer"). -/
def pyLower (s : String) : String :=
  String.mk (s.toList.map Char.toLower)

/-- main.py `get_api_key` (lines 39-50): parse the Authorization header
as `<scheme> <token>`; 401 unless the scheme is case-insensitively
"bearer" and the token is nonempty; then look the token up in the
`api_keys` table (`filter_by(key=token).first()`), 401 when absent. -/
def get_api_key (api_keys : List APIKey) (authorization : String) :
    Except HTTPError APIKey :=
  if pyLower (pyPartitionSpace authorization).1 ≠ "bearer" ∨
      (pyPartitionSpace authorization).2 = "" then
    .error unauthorizedHeader
  else
    match api_keys.find? (fun k => k.key = (pyPartitionSpace authorization).2) with
    | none => .error unauthorizedKey
    | some k => .ok k

/-! ### Startup readiness loop (main.py `lifespan`, lines 98-110) -/

/-- An observable step of the startup loop: one schema-initialization
attempt (numbered from 0, matching `for attempt in range(10)`), or one
`asyncio.sleep` with its duration in seconds. -/
inductive StartupStep where
  | attempt (i : Nat)
  | sleep (seconds : Nat)
deriving Repr, DecidableEq

/-- The loop body of `lifespan`: `ok i` says whether the `i`-th call of
`Base.metadata.create_all` succeeds (i.e. raises no `OperationalError`).
`a` is the current attempt index, `r` the number of attempts left out of
the `range(10)` budget.  A failed attempt is followed by `sleep 2`
(also after the last one, as in the source); when the budget is spent
without a `break`, the `for`-`else` raises `RuntimeError`. -/
def lifespanLoop (ok : Nat → Bool) : Nat → Nat → List StartupStep × Except String Unit
  | _, 0 => ([], .error "Could not initialize DB")
  | a, r + 1 =>
    if ok a then ([.attempt a], .ok ())
    else
      let rest := lifespanLoop ok (a + 1) r
      (.attempt a :: .sleep 2 :: rest.1, rest.2)

/-- main.py `lifespan` up to its `yield`: ten attempts starting at 0. -/
def lifespan (ok : Nat → Bool) : List StartupStep × Except String Unit :=
  lifespanLoop ok 0 10

/-- Number of initialization attempts recorded in a startup trace. -/
def countAttempts (trace : List StartupStep) : Nat :=
  trace.countP fun st => match st with | .attempt _ => true | _ => false

/-! ### Profile enricher (main.py `fetch_rsi_profile`, lines 53-94)

The network and the HTML parser are external to the program; they are
modelled by a function from URL to an optional page, where a page is
the abstraction BeautifulSoup exposes to this code: the list of `meta`
tags (property and optional `content` attribute) and the list of `a`
tags (`href` attribute — `""` models an absent/empty one, both falsy in
Python — and whitespace-stripped text) in document order.  `none`
models any network or HTTP-status failure (`requests` exception or
`raise_for_status`). -/

structure MetaTag where
  property : String
  content : Option String
deriving Repr, DecidableEq

structure Anchor where
  href : String
  text : String
deriving Repr, DecidableEq

structure HTMLPage where
  metas : List MetaTag
  anchors : List Anchor
deriving Repr, DecidableEq

def Net : Type := String → Option HTMLPage

/-- The nested `organization` dict of the scrape result. -/
structure Organization where
  name : Option String
  url : Option String
deriving Repr, DecidableEq

/-- The dict returned by `fetch_rsi_profile`. -/
structure ProfileMeta where
  avatar_url : Option String
  organization : Organization
deriving Repr, DecidableEq

/-- The all-empty scrape result returned on any fetch failure. -/
def emptyProfile : ProfileMeta := ⟨none, ⟨none, none⟩⟩

/-- Python `"/orgs/" in h`. -/
def containsSub (needle s : String) : Bool :=
  decide (needle.toList <:+: s.toList)

/-- `soup.find("meta", property=prop)`: first meta tag with the given
property. -/
def findMetaProp (soup : HTMLPage) (prop : String) : Option MetaTag :=
  soup.metas.find? (fun t => t.property = prop)

/-- One iteration of the avatar loop (main.py lines 65-69): the value
bound to `avatar` when `tag and tag.get("content")` is truthy; an
absent tag, an absent `content` attribute, or an empty one (falsy in
Python) yields nothing and the loop goes on. -/
def metaContent (soup : HTMLPage) (prop : String) : Option String :=
  match findMetaProp soup prop with
  | none => none
  | some t =>
    match t.content with
    | none => none
    | some c => if c = "" then none else some c

/-- The avatar extracted from a fetched page: first of the properties
`og:image`, `og:image:url` with a truthy content, if any. -/
def avatarOf (soup : HTMLPage) : Option String :=
  match metaContent soup "og:image" with
  | some c => some c
  | none => metaContent soup "og:image:url"

/-- Python `s.rstrip("/")`. -/
def rstripSlash (s : String) : String :=
  String.mk (s.toList.reverse.dropWhile (fun c => c = '/')).reverse

/-- Python `s.rsplit("/", 1)[-1]`: the part after the last slash (the
whole string when no slash occurs). -/
def lastSeg (s : String) : String :=
  String.mk (s.toList.reverse.takeWhile (fun c => c ≠ '/')).reverse

/-- The organization extracted from a fetched page (main.py lines
71-89): first anchor whose href is truthy and contains "/orgs/";
relative hrefs are made absolute; the name is the link text when
nonempty, else the last path segment of the URL. -/
def orgOf (soup : HTMLPage) : Organization :=
  match soup.anchors.find?
      (fun a => a.href != "" && containsSub "/orgs/" a.href) with
  | none => ⟨none, none⟩
  | some link =>
    let org_url :=
      if link.href.startsWith "http" then link.href
      else "https://robertsspaceindustries.com" ++ link.href
    ⟨some (if link.text != "" then link.text else lastSeg (rstripSlash org_url)),
      some org_url⟩

/-- The URL fetched for a handle (main.py line 54). -/
def profileUrl (handle : String) : String :=
  "https://robertsspaceindustries.com/citizens/" ++ handle

/-- main.py `fetch_rsi_profile`: on fetch failure all fields are empty;
on success the avatar and organization are extracted from the page. -/
def fetch_rsi_profile (net : Net) (handle : String) : ProfileMeta :=
  match net (profileUrl handle) with
  | none => emptyProfile
  | some soup => ⟨avatarOf soup, orgOf soup⟩

/-! ### Data model

`Datetime` abstracts Python `datetime.datetime` as a totally ordered
instant; `iso`/`fromiso` parameters abstract `isoformat()` and
`datetime.fromisoformat`. -/

abbrev Datetime := Nat

/-- The `Literal["pu-kill", "ac-kill"]` mode tag of the kill schema. -/
inductive Mode where
  | puKill
  | acKill
deriving Repr, DecidableEq

def Mode.render : Mode → String
  | .puKill => "pu-kill"
  | .acKill => "ac-kill"

/-- Pydantic request body of `POST /reportKill` (main.py `KillEvent`,
lines 135-152); pydantic guarantees every non-`Optional` field is
present, so those are total here. -/
structure KillEvent where
  player : String
  victim : String
  time : Datetime
  zone : String
  weapon : String
  damage_type : String
  rsi_profile : String
  game_mode : String
  mode : Mode
  client_ver : String
  killers_ship : String
  victim_ship : Option String
  avatar_url : Option String
  organization_name : Option String
  organization_url : Option String
deriving Repr, DecidableEq

/-- Pydantic request body of `POST /reportDeath` (main.py `DeathEvent`,
lines 159-174); its `time` is a plain string. -/
structure DeathEvent where
  killer : String
  victim : String
  time : String
  zone : String
  weapon : String
  damage_type : String
  rsi_profile : String
  game_mode : String
  killers_ship : String
  victim_ship : Option String
  avatar_url : Option String
  organization_name : Option String
  organization_url : Option String
deriving Repr, DecidableEq

/-- A row of the `kills` table: exactly the columns of
models.py `KillEventModel` (lines 29-45).  Note the model has **no**
`victim_ship` column. -/
structure KillRow where
  id : Nat
  player : String
  victim : String
  time : Datetime
  zone : String
  weapon : String
  damage_type : String
  rsi_profile : String
  game_mode : String
  mode : Mode
  client_ver : String
  killers_ship : String
  avatar_url : Option String
  organization_name : Option String
  organization_url : Option String
deriving Repr, DecidableEq

/-- A row of the `deaths` table: exactly the columns of
models.py `DeathEventModel` (lines 48-62).  It, too, has **no**
`victim_ship` column. -/
structure DeathRow where
  id : Nat
  killer : String
  victim : String
  time : Datetime
  zone : String
  weapon : String
  damage_type : String
  rsi_profile : String
  game_mode : String
  killers_ship : String
  avatar_url : Option String
  organization_name : Option String
  organization_url : Option String
deriving Repr, DecidableEq

/-- The persistent state: the three tables plus the autoincrement
counters that assign row identities. -/
structure DBState where
  kills : List KillRow
  deaths : List DeathRow
  api_keys : List APIKey
  next_kill_id : Nat
  next_death_id : Nat
deriving Repr, DecidableEq

def dbEmpty : DBState := ⟨[], [], [], 1, 1⟩

/-! ### SQLAlchemy declarative-model semantics

The declarative base constructor (`Model(**kwargs)`) accepts a keyword
argument only when the class has an attribute of that name, and raises
`TypeError("<name> is an invalid keyword argument for <Model>")`
otherwise; likewise, reading a missing attribute on an instance raises
`AttributeError`.  We record the attribute names of each model class
and of each access site as name lists and model both checks with
`hasattrAll`. -/

/-- A value bound to a column by a handler: a string, a datetime, or
SQL NULL (Python `None`). -/
inductive ColVal where
  | str (s : String)
  | time (t : Datetime)
  | null
deriving Repr, DecidableEq

def ColVal.ofOpt : Option String → ColVal
  | none => .null
  | some s => .str s

/-- Attribute names of models.py `KillEventModel` (lines 29-45). -/
def killModelAttrs : List String :=
  ["id", "player", "victim", "time", "zone", "weapon", "damage_type",
   "rsi_profile", "game_mode", "mode", "client_ver", "killers_ship",
   "avatar_url", "organization_name", "organization_url"]

/-- Attribute names of models.py `DeathEventModel` (lines 48-62). -/
def deathModelAttrs : List String :=
  ["id", "killer", "victim", "time", "zone", "weapon", "damage_type",
   "rsi_profile", "game_mode", "killers_ship",
   "avatar_url", "organization_name", "organization_url"]

/-- Python `all(hasattr(cls, n) for n in names)`. -/
def hasattrAll (attrs names : List String) : Bool :=
  names.all (fun n => attrs.contains n)

/-- The keyword arguments `report_kill` passes to
`KillEventModel(...)` (main.py lines 266-282), in source order, with
`killer_meta`/`victim_meta` the two scrape results. -/
def killInsertBindings (event : KillEvent)
    (killer_meta victim_meta : ProfileMeta) : List (String × ColVal) :=
  [("player", .str event.player),
   ("victim", .str event.victim),
   ("time", .time event.time),
   ("zone", .str event.zone),
   ("weapon", .str event.weapon),
   ("damage_type", .str event.damage_type),
   ("rsi_profile", .str event.rsi_profile),
   ("game_mode", .str event.game_mode),
   ("mode", .str event.mode.render),
   ("client_ver", .str event.client_ver),
   ("killers_ship", .str event.killers_ship),
   ("victim_ship", ColVal.ofOpt event.victim_ship),
   ("avatar_url", ColVal.ofOpt killer_meta.avatar_url),
   ("organization_name", ColVal.ofOpt victim_meta.organization.name),
   ("organization_url", ColVal.ofOpt victim_meta.organization.url)]

/-- Python `s.rstrip("Z")` (main.py line 187). -/
def pyRstripZ (s : String) : String :=
  String.mk (s.toList.reverse.dropWhile (fun c => c = 'Z')).reverse

/-- The keyword arguments `report_death` passes to
`DeathEventModel(...)` (main.py lines 184-198); all three enrichment
fields come from the killer's scrape result, and the time string is
parsed after stripping trailing "Z". -/
def deathInsertBindings (fromiso : String → Datetime) (evt : DeathEvent)
    (killer_meta : ProfileMeta) : List (String × ColVal) :=
  [("killer", .str evt.killer),
   ("victim", .str evt.victim),
   ("time", .time (fromiso (pyRstripZ evt.time))),
   ("zone", .str evt.zone),
   ("weapon", .str evt.weapon),
   ("damage_type", .str evt.damage_type),
   ("rsi_profile", .str evt.rsi_profile),
   ("game_mode", .str evt.game_mode),
   ("killers_ship", .str evt.killers_ship),
   ("victim_ship", ColVal.ofOpt evt.victim_ship),
   ("avatar_url", ColVal.ofOpt killer_meta.avatar_url),
   ("organization_name", ColVal.ofOpt killer_meta.organization.name),
   ("organization_url", ColVal.ofOpt killer_meta.organization.url)]

/-! ### Endpoint handlers (main.py lines 177-320) -/

/-- The `HTTPException(500, str(e))` that `report_kill`'s `except`
block produces for the `TypeError` raised by
`KillEventModel(victim_ship=...)` (that keyword is not an attribute of
the model class). -/
def killCtorError : HTTPError :=
  ⟨500, "victim_ship is an invalid keyword argument for KillEventModel"⟩

/-- The `HTTPException(500, str(e))` that `report_kill` produces when
`db.commit()` raises; the model fixes one representative message. -/
def commitError : HTTPError := ⟨500, "commit failed"⟩

/-- The generic 500 reply FastAPI sends when a handler raises an
exception no `except` block catches. -/
def internalServerError : HTTPError := ⟨500, "Internal Server Error"⟩

/-- The `{"status": "ok", "message": "Kill recorded"}` reply. -/
structure KillAck where
  status : String
  message : String
deriving Repr, DecidableEq

/-- The `{"ok": True}` reply of `report_death`. -/
structure DeathAck where
  ok : Bool
deriving Repr, DecidableEq

/-- The `{"status": "ok"}` reply of `validate_key`. -/
structure ValidateAck where
  status : String
deriving Repr, DecidableEq

/-- main.py `report_kill` (lines 256-290): auth via `get_api_key`
(the `Depends` runs before the body), scrape player and victim, then
`KillEventModel(**kwargs)` + `add` + `commit` inside
`try ... except Exception: rollback; raise HTTPException(500, str(e))`.
The constructor check mirrors the declarative base: it rejects the
`victim_ship` keyword, so the success branch is unreachable in the
current source; it is kept because it is what the source spells out. -/
def report_kill (net : Net) (commitOk : Bool) (db : DBState)
    (authorization : String) (event : KillEvent) :
    DBState × Except HTTPError KillAck :=
  match get_api_key db.api_keys authorization with
  | .error e => (db, .error e)
  | .ok _ =>
    if hasattrAll killModelAttrs
        ((killInsertBindings event (fetch_rsi_profile net event.player)
          (fetch_rsi_profile net event.victim)).map Prod.fst) then
      if commitOk then
        ({ db with
            kills := db.kills ++
              [{ id := db.next_kill_id
                 player := event.player
                 victim := event.victim
                 time := event.time
                 zone := event.zone
                 weapon := event.weapon
                 damage_type := event.damage_type
                 rsi_profile := event.rsi_profile
                 game_mode := event.game_mode
                 mode := event.mode
                 client_ver := event.client_ver
                 killers_ship := event.killers_ship
                 avatar_url := (fetch_rsi_profile net event.player).avatar_url
                 organization_name :=
                   (fetch_rsi_profile net event.victim).organization.name
                 organization_url :=
                   (fetch_rsi_profile net event.victim).organization.url }]
            next_kill_id := db.next_kill_id + 1 },
          .ok ⟨"ok", "Kill recorded"⟩)
      else (db, .error commitError)
    else (db, .error killCtorError)

/-- main.py `report_death` (lines 177-203): auth, scrape the killer
only, then `DeathEventModel(**kwargs)` + `add` + `commit` with **no**
`except` block, so any raised exception (the `victim_ship` `TypeError`,
or a commit failure) escapes the handler and FastAPI answers 500. -/
def report_death (net : Net) (fromiso : String → Datetime) (commitOk : Bool)
    (db : DBState) (authorization : String) (evt : DeathEvent) :
    DBState × Except HTTPError DeathAck :=
  match get_api_key db.api_keys authorization with
  | .error e => (db, .error e)
  | .ok _ =>
    if hasattrAll deathModelAttrs
        ((deathInsertBindings fromiso evt
          (fetch_rsi_profile net evt.killer)).map Prod.fst) then
      if commitOk then
        ({ db with
            deaths := db.deaths ++
              [{ id := db.next_death_id
                 killer := evt.killer
                 victim := evt.victim
                 time := fromiso (pyRstripZ evt.time)
                 zone := evt.zone
                 weapon := evt.weapon
                 damage_type := evt.damage_type
                 rsi_profile := evt.rsi_profile
                 game_mode := evt.game_mode
                 killers_ship := evt.killers_ship
                 avatar_url := (fetch_rsi_profile net evt.killer).avatar_url
                 organization_name :=
                   (fetch_rsi_profile net evt.killer).organization.name
                 organization_url :=
                   (fetch_rsi_profile net evt.killer).organization.url }]
            next_death_id := db.next_death_id + 1 },
          .ok ⟨true⟩)
      else (db, .error internalServerError)
    else (db, .error internalServerError)

/-- main.py `create_key` (lines 234-243): persist a fresh
`APIKey(key=new_key, discord_id=discord_id)` and return the key string;
`new_key` stands for the freshly drawn `str(uuid.uuid4())`. -/
def create_key (db : DBState) (discord_id new_key : String) :
    DBState × String :=
  ({ db with api_keys := db.api_keys ++ [⟨new_key, discord_id⟩] }, new_key)

/-- main.py `validate_key` (lines 247-252): 200 `{"status": "ok"}`
exactly when `get_api_key` accepts the header. -/
def validate_key (db : DBState) (authorization : String) :
    Except HTTPError ValidateAck :=
  match get_api_key db.api_keys authorization with
  | .error e => .error e
  | .ok _ => .ok ⟨"ok"⟩

/-- Attribute names read from each row by `list_kills`'s comprehension
(main.py lines 300-316); note it reads `victim_ship`. -/
def killListReadAttrs : List String :=
  ["id", "player", "victim", "time", "zone", "weapon", "damage_type",
   "mode", "game_mode", "rsi_profile", "killers_ship", "victim_ship",
   "avatar_url", "organization_name", "organization_url"]

/-- Attribute names read from each row by `list_deaths`'s comprehension
(main.py lines 212-226); it, too, reads `victim_ship`. -/
def deathListReadAttrs : List String :=
  ["killer", "victim", "time", "zone", "weapon", "damage_type",
   "rsi_profile", "game_mode", "killers_ship", "victim_ship",
   "avatar_url", "organization_name", "organization_url"]

/-- One dict of the `GET /kills` reply (main.py lines 300-316), with
`iso` rendering `e.time.isoformat()`.  The source dict also holds a
`victim_ship` entry; reading it is exactly the access `hasattrAll
killModelAttrs killListReadAttrs` checks, so this record carries the
remaining entries. -/
structure KillOut where
  id : Nat
  player : String
  victim : String
  time : String
  zone : String
  weapon : String
  damage_type : String
  mode : String
  game_mode : String
  rsi_profile : String
  killers_ship : String
  avatar_url : Option String
  organization_name : Option String
  organization_url : Option String
deriving Repr, DecidableEq

def killOutOf (iso : Datetime → String) (e : KillRow) : KillOut :=
  ⟨e.id, e.player, e.victim, iso e.time, e.zone, e.weapon, e.damage_type,
    e.mode.render, e.game_mode, e.rsi_profile, e.killers_ship,
    e.avatar_url, e.organization_name, e.organization_url⟩

/-- One dict of the `GET /deaths` reply (main.py lines 212-226), whose
time is rendered as `r.time.isoformat() + "Z"`; the `victim_ship`
entry of the source dict is covered by `deathListReadAttrs` as for
kills. -/
structure DeathOut where
  killer : String
  victim : String
  time : String
  zone : String
  weapon : String
  damage_type : String
  rsi_profile : String
  game_mode : String
  killers_ship : String
  avatar_url : Option String
  organization_name : Option String
  organization_url : Option String
deriving Repr, DecidableEq

def deathOutOf (iso : Datetime → String) (r : DeathRow) : DeathOut :=
  ⟨r.killer, r.victim, iso r.time ++ "Z", r.zone, r.weapon, r.damage_type,
    r.rsi_profile, r.game_mode, r.killers_ship,
    r.avatar_url, r.organization_name, r.organization_url⟩

/-- main.py `list_kills` (lines 294-320): no auth dependency; rows
ordered by `order_by(KillEventModel.id)`; the comprehension touches no
row attribute when the table is empty, and otherwise its very first
`victim_ship` read raises `AttributeError`, which FastAPI surfaces as
a 500 reply. -/
def list_kills (iso : Datetime → String) (db : DBState) :
    Except HTTPError (List KillOut) :=
  let evs := db.kills.mergeSort (fun a b => decide (a.id ≤ b.id))
  if evs.isEmpty then .ok []
  else if hasattrAll killModelAttrs killListReadAttrs then
    .ok (evs.map (killOutOf iso))
  else .error internalServerError

/-- main.py `list_deaths` (lines 206-230): auth via `get_api_key`
first (the `Depends`), then rows ordered by
`order_by(DeathEventModel.time)` and the same comprehension pattern as
`list_kills`. -/
def list_deaths (iso : Datetime → String) (db : DBState)
    (authorization : String) : Except HTTPError (List DeathOut) :=
  match get_api_key db.api_keys authorization with
  | .error e => .error e
  | .ok _ =>
    let rows := db.deaths.mergeSort (fun a b => decide (a.time ≤ b.time))
    if rows.isEmpty then .ok []
    else if hasattrAll deathModelAttrs deathListReadAttrs then
      .ok (rows.map (deathOutOf iso))
    else .error internalServerError

/-! ### The state-changing operations of the HTTP surface

`GET /kills`, `GET /deaths`, `GET /keys/validate` and the health
probes read but never write, so a reachable state is one produced from
`dbEmpty` by a sequence of the three write endpoints. -/

inductive Op where
  | reportKill (net : Net) (commitOk : Bool) (authorization : String)
      (event : KillEvent)
  | reportDeath (net : Net) (fromiso : String → Datetime) (commitOk : Bool)
      (authorization : String) (event : DeathEvent)
  | createKey (discord_id new_key : String)

def applyOp (db : DBState) : Op → DBState
  | .reportKill net c a e => (report_kill net c db a e).1
  | .reportDeath net fi c a e => (report_death net fi c db a e).1
  | .createKey d k => (create_key db d k).1

def runOps (db : DBState) : List Op → DBState
  | [] => db
  | op :: ops => runOps (applyOp db op) ops

/-! ### Concrete fixtures for the scenario theorems -/

def key0 : APIKey := ⟨"secret", "42"⟩

/-- A store holding one issued key. -/
def db0 : DBState := ⟨[], [], [key0], 1, 1⟩

/-- A network on which every fetch fails (connection error, timeout or
bad HTTP status). -/
def netFail : Net := fun _ => none

/-- A datetime rendering for the concrete scenarios. -/
def iso0 : Datetime → String := fun t => toString t

/-- A datetime parsing for the concrete scenarios. -/
def fromiso0 : String → Datetime := fun _ => 0

/-- The round-trip example event of the spec (§8). -/
def evtHan : KillEvent :=
  ⟨"Han", "Greedo", 0, "Mos Eisley", "blaster", "ballistic",
    "https://robertsspaceindustries.com/citizens/Han", "PU", .puKill,
    "3.24", "YT-1300", none, none, none, none⟩

def evtA : KillEvent :=
  ⟨"A", "VA", 1, "zA", "wA", "dA", "rA", "gA", .puKill, "cA", "sA",
    none, none, none, none⟩

def evtB : KillEvent :=
  ⟨"B", "VB", 2, "zB", "wB", "dB", "rB", "gB", .puKill, "cB", "sB",
    none, none, none, none⟩

def evtC : KillEvent :=
  ⟨"C", "VC", 3, "zC", "wC", "dC", "rC", "gC", .puKill, "cC", "sC",
    none, none, none, none⟩

def dEvtT1 : DeathEvent :=
  ⟨"K1", "V1", "2024-01-01T00:00:00Z", "z1", "w1", "d1", "r1", "g1", "s1",
    none, none, none, none⟩

def dEvtT2 : DeathEvent :=
  ⟨"K2", "V2", "2024-01-02T00:00:00Z", "z2", "w2", "d2", "r2", "g2", "s2",
    none, none, none, none⟩

def dEvtT3 : DeathEvent :=
  ⟨"K3", "V3", "2024-01-03T00:00:00Z", "z3", "w3", "d3", "r3", "g3", "s3",
    none, none, none, none⟩

/-- The kill columns the invariant of spec §3 calls actor, target,
timestamp, zone, weapon and damage-type. -/
def requiredKillCols : List String :=
  ["player", "victim", "time", "zone", "weapon", "damage_type"]

/-- The death columns the invariant calls actor, target, timestamp,
zone, weapon and damage-type. -/
def requiredDeathCols : List String :=
  ["killer", "victim", "time", "zone", "weapon", "damage_type"]

/-- The enrichment columns. -/
def enrichmentCols : List String :=
  ["avatar_url", "organization_name", "organization_url"]

/-- `nullable` of each `KillEventModel` column (models.py lines 29-45;
the primary key is never nullable). -/
def killSchemaNullable : List (String × Bool) :=
  [("id", false), ("player", false), ("victim", false), ("time", false),
   ("zone", false), ("weapon", false), ("damage_type", false),
   ("rsi_profile", false), ("game_mode", false), ("mode", false),
   ("client_ver", false), ("killers_ship", false),
   ("avatar_url", true), ("organization_name", true),
   ("organization_url", true)]

/-- `nullable` of each `DeathEventModel` column (models.py lines 48-62). -/
def deathSchemaNullable : List (String × Bool) :=
  [("id", false), ("killer", false), ("victim", false), ("time", false),
   ("zone", false), ("weapon", false), ("damage_type", false),
   ("rsi_profile", false), ("game_mode", false), ("killers_ship", false),
   ("avatar_url", true), ("organization_name", true),
   ("organization_url", true)]

/-! ### Theorems -/

theorem get_api_key_mem_of_ok (api_keys : List APIKey) (authorization : String)
    (k : APIKey) (h : get_api_key api_keys authorization = .ok k) :
    k ∈ api_keys ∧ k.key = (pyPartitionSpace authorization).2 := by
  unfold get_api_key at h
  split at h
  · exact absurd h (by simp)
  · split at h
    · exact absurd h (by simp)
    · rename_i hfind
      cases h
      refine ⟨List.mem_of_find?_eq_some hfind, ?_⟩
      have := List.find?_some hfind
      simpa using this

/-- C1: the auth gate returns a 401 error exactly when the scheme
(lower-cased) is not "bearer", or the token after the scheme is empty,
or no stored key equals the token; when it accepts, the returned record
is a stored key whose `key` is the token. -/
theorem auth_gate_rejects_iff (api_keys : List APIKey) (authorization : String) :
    ((∃ e, get_api_key api_keys authorization = .error e ∧ e.status = 401) ↔
      (pyLower (pyPartitionSpace authorization).1 ≠ "bearer" ∨
        (pyPartitionSpace authorization).2 = "" ∨
        ∀ k ∈ api_keys, k.key ≠ (pyPartitionSpace authorization).2)) ∧
    (∀ k, get_api_key api_keys authorization = .ok k →
      k ∈ api_keys ∧ k.key = (pyPartitionSpace authorization).2) := by
  constructor
  · unfold get_api_key
    split
    · rename_i hbad
      simp only [unauthorizedHeader]
      constructor
      · intro _
        rcases hbad with h | h
        · exact Or.inl h
        · exact Or.inr (Or.inl h)
      · intro _
        exact ⟨⟨401, "Missing or invalid Authorization header"⟩, rfl, rfl⟩
    · rename_i hgood
      push_neg at hgood
      split
      · rename_i hfind
        simp only [unauthorizedKey]
        constructor
        · intro _
          refine Or.inr (Or.inr ?_)
          intro k hk
          have := List.find?_eq_none.mp hfind k hk
          simpa using this
        · intro _
          exact ⟨⟨401, "Invalid API key"⟩, rfl, rfl⟩
      · rename_i k hfind
        constructor
        · rintro ⟨e, he, -⟩
          exact absurd he (by simp)
        · rintro (h | h | h)
          · exact absurd hgood.1 (by simp [h])
          · exact absurd hgood.2 (by simp [h])
          · have hk := List.find?_some hfind
            have hmem := List.mem_of_find?_eq_some hfind
            exact absurd (by simpa using hk) (h k hmem)
  · exact fun k h => get_api_key_mem_of_ok api_keys authorization k h

/-- Witness for C1 at a concrete store and header. -/
theorem auth_gate_rejects_iff_witness :
    (⟨"tok-1", "42"⟩ : APIKey) ∈ [(⟨"tok-1", "42"⟩ : APIKey)] ∧
      (⟨"tok-1", "42"⟩ : APIKey).key = (pyPartitionSpace "Bearer tok-1").2 :=
  (auth_gate_rejects_iff [⟨"tok-1", "42"⟩] "Bearer tok-1").2
    ⟨"tok-1", "42"⟩ rfl

theorem countAttempts_cons_attempt (i : Nat) (l : List StartupStep) :
    countAttempts (.attempt i :: l) = countAttempts l + 1 := by
  simp [countAttempts]

theorem countAttempts_cons_sleep (s : Nat) (l : List StartupStep) :
    countAttempts (.sleep s :: l) = countAttempts l := by
  simp [countAttempts]

theorem lifespanLoop_attempts_le (ok : Nat → Bool) (a r : Nat) :
    countAttempts (lifespanLoop ok a r).1 ≤ r := by
  induction r generalizing a with
  | zero => simp [lifespanLoop, countAttempts]
  | succ n ih =>
    by_cases h : ok a
    · simp [lifespanLoop, h, countAttempts]
    · simp only [lifespanLoop, h, Bool.false_eq_true, if_false]
      rw [countAttempts_cons_attempt, countAttempts_cons_sleep]
      have := ih (a + 1)
      omega

theorem lifespanLoop_sleep_eq_two (ok : Nat → Bool) (a r : Nat) (s : Nat)
    (h : StartupStep.sleep s ∈ (lifespanLoop ok a r).1) : s = 2 := by
  induction r generalizing a with
  | zero => simp [lifespanLoop] at h
  | succ n ih =>
    by_cases hok : ok a
    · simp [lifespanLoop, hok] at h
    · simp only [lifespanLoop, hok, Bool.false_eq_true, if_false,
        List.mem_cons] at h
      rcases h with h | h | h
      · cases h
      · cases h; rfl
      · exact ih (a + 1) h

theorem lifespanLoop_success (ok : Nat → Bool) (a r i : Nat)
    (hi : i < r) (hok : ok (a + i) = true)
    (hmin : ∀ j, j < i → ok (a + j) = false) :
    (lifespanLoop ok a r).2 = .ok () ∧
      countAttempts (lifespanLoop ok a r).1 = i + 1 := by
  induction i generalizing a r with
  | zero =>
    obtain ⟨r', rfl⟩ : ∃ r', r = r' + 1 := ⟨r - 1, by omega⟩
    simp only [Nat.add_zero] at hok
    simp [lifespanLoop, hok, countAttempts]
  | succ n ih =>
    obtain ⟨r', rfl⟩ : ∃ r', r = r' + 1 := ⟨r - 1, by omega⟩
    have h0 : ok a = false := by simpa using hmin 0 (Nat.succ_pos n)
    simp only [lifespanLoop, h0, Bool.false_eq_true, if_false]
    have hrec := ih (a + 1) r' (by omega)
      (by rw [show a + 1 + n = a + (n + 1) by omega]; exact hok)
      (fun j hj => by
        rw [show a + 1 + j = a + (j + 1) by omega]
        exact hmin (j + 1) (by omega))
    refine ⟨hrec.1, ?_⟩
    rw [countAttempts_cons_attempt, countAttempts_cons_sleep, hrec.2]

theorem lifespanLoop_all_fail (ok : Nat → Bool) (a r : Nat)
    (h : ∀ j, j < r → ok (a + j) = false) :
    (lifespanLoop ok a r).2 = .error "Could not initialize DB" := by
  induction r generalizing a with
  | zero => simp [lifespanLoop]
  | succ n ih =>
    have h0 : ok a = false := by simpa using h 0 (Nat.succ_pos n)
    simp only [lifespanLoop, h0, Bool.false_eq_true, if_false]
    exact ih (a + 1) (fun j hj => by
      rw [show a + 1 + j = a + (j + 1) by omega]
      exact h (j + 1) (by omega))

/-- C2: the startup loop makes at most 10 attempts, every suspension
between attempts lasts 2 seconds, a first success at attempt index
`i < 10` ends the loop successfully after exactly `i + 1` attempts
(the remaining ones are skipped), and if all 10 attempts fail the loop
ends with the fatal `RuntimeError`. -/
theorem startup_retry_bounded (ok : Nat → Bool) :
    countAttempts (lifespan ok).1 ≤ 10 ∧
    (∀ s, StartupStep.sleep s ∈ (lifespan ok).1 → s = 2) ∧
    (∀ i, i < 10 → ok i = true → (∀ j, j < i → ok j = false) →
      (lifespan ok).2 = .ok () ∧ countAttempts (lifespan ok).1 = i + 1) ∧
    ((∀ i, i < 10 → ok i = false) →
      (lifespan ok).2 = .error "Could not initialize DB") := by
  refine ⟨lifespanLoop_attempts_le ok 0 10,
    fun s hs => lifespanLoop_sleep_eq_two ok 0 10 s hs, ?_, ?_⟩
  · intro i hi hok hmin
    exact lifespanLoop_success ok 0 10 i hi (by simpa using hok)
      (fun j hj => by simpa using hmin j hj)
  · intro h
    exact lifespanLoop_all_fail ok 0 10 (fun j hj => by simpa using h j hj)

/-- Witness for C2: the store becomes available on the fourth attempt
(index 3), so startup succeeds after exactly 4 attempts. -/
theorem startup_retry_bounded_witness :
    (lifespan (fun i => decide (i = 3))).2 = .ok () ∧
      countAttempts (lifespan (fun i => decide (i = 3))).1 = 3 + 1 :=
  (startup_retry_bounded (fun i => decide (i = 3))).2.2.1 3 (by decide)
    (by decide) (by decide)

/-! ### Structural lemmas -/

/-- `KillEventModel(**kwargs)` rejects the kwargs `report_kill` passes:
`victim_ship` is not among the model's attributes. -/
theorem killCtor_fails (event : KillEvent) (km vm : ProfileMeta) :
    hasattrAll killModelAttrs
      ((killInsertBindings event km vm).map Prod.fst) = false := rfl

/-- `DeathEventModel(**kwargs)` rejects the kwargs `report_death`
passes, for the same `victim_ship` reason. -/
theorem deathCtor_fails (fromiso : String → Datetime) (evt : DeathEvent)
    (km : ProfileMeta) :
    hasattrAll deathModelAttrs
      ((deathInsertBindings fromiso evt km).map Prod.fst) = false := rfl

/-- `report_kill` never changes the database state: the request is
either rejected by the auth gate, or fails on the model constructor
and is rolled back. -/
theorem report_kill_fst (net : Net) (c : Bool) (db : DBState) (a : String)
    (e : KillEvent) : (report_kill net c db a e).1 = db := by
  unfold report_kill
  cases get_api_key db.api_keys a with
  | error e' => rfl
  | ok k => simp [killCtor_fails]

/-- When the auth gate accepts, `report_kill` answers the 500 carrying
the constructor `TypeError` text. -/
theorem report_kill_snd (net : Net) (c : Bool) (db : DBState) (a : String)
    (e : KillEvent) (k : APIKey) (h : get_api_key db.api_keys a = .ok k) :
    (report_kill net c db a e).2 = .error killCtorError := by
  unfold report_kill
  rw [h]
  simp [killCtor_fails]

/-- `report_death` never changes the database state. -/
theorem report_death_fst (net : Net) (fi : String → Datetime) (c : Bool)
    (db : DBState) (a : String) (e : DeathEvent) :
    (report_death net fi c db a e).1 = db := by
  unfold report_death
  cases get_api_key db.api_keys a with
  | error e' => rfl
  | ok k => simp [deathCtor_fails]

/-- When the auth gate accepts, `report_death` ends in the uncaught
`TypeError`, surfaced by the framework as a 500 reply. -/
theorem report_death_snd (net : Net) (fi : String → Datetime) (c : Bool)
    (db : DBState) (a : String) (e : DeathEvent) (k : APIKey)
    (h : get_api_key db.api_keys a = .ok k) :
    (report_death net fi c db a e).2 = .error internalServerError := by
  unfold report_death
  rw [h]
  simp [deathCtor_fails]

theorem applyOp_kills (db : DBState) (op : Op) :
    (applyOp db op).kills = db.kills := by
  cases op with
  | reportKill net c a e => rw [applyOp, report_kill_fst]
  | reportDeath net fi c a e => rw [applyOp, report_death_fst]
  | createKey d k => rfl

theorem applyOp_deaths (db : DBState) (op : Op) :
    (applyOp db op).deaths = db.deaths := by
  cases op with
  | reportKill net c a e => rw [applyOp, report_kill_fst]
  | reportDeath net fi c a e => rw [applyOp, report_death_fst]
  | createKey d k => rfl

/-- No operation removes a stored API key. -/
theorem applyOp_keys_mono (db : DBState) (op : Op) (k : APIKey)
    (h : k ∈ db.api_keys) : k ∈ (applyOp db op).api_keys := by
  cases op with
  | reportKill net c a e => rw [applyOp, report_kill_fst]; exact h
  | reportDeath net fi c a e => rw [applyOp, report_death_fst]; exact h
  | createKey d nk =>
    simp only [applyOp, create_key]
    exact List.mem_append_left _ h

theorem runOps_kills (db : DBState) (ops : List Op) :
    (runOps db ops).kills = db.kills := by
  induction ops generalizing db with
  | nil => rfl
  | cons op ops ih => rw [runOps, ih, applyOp_kills]

theorem runOps_deaths (db : DBState) (ops : List Op) :
    (runOps db ops).deaths = db.deaths := by
  induction ops generalizing db with
  | nil => rfl
  | cons op ops ih => rw [runOps, ih, applyOp_deaths]

theorem runOps_keys_mono (db : DBState) (ops : List Op) (k : APIKey)
    (h : k ∈ db.api_keys) : k ∈ (runOps db ops).api_keys := by
  induction ops generalizing db with
  | nil => exact h
  | cons op ops ih => exact ih _ (applyOp_keys_mono db op k h)

/-! ### Listing lemmas -/

theorem list_kills_empty (iso : Datetime → String) (db : DBState)
    (h : db.kills = []) : list_kills iso db = .ok [] := by
  simp [list_kills, h, List.mergeSort_nil]

theorem list_deaths_empty (iso : Datetime → String) (db : DBState)
    (a : String) (k : APIKey) (hk : get_api_key db.api_keys a = .ok k)
    (h : db.deaths = []) : list_deaths iso db a = .ok [] := by
  unfold list_deaths
  rw [hk]
  simp [h, List.mergeSort_nil]

/-- Every rejection of the auth gate carries status 401. -/
theorem get_api_key_error_status (keys : List APIKey) (a : String)
    (e : HTTPError) (h : get_api_key keys a = .error e) : e.status = 401 := by
  unfold get_api_key at h
  split at h
  · cases h; rfl
  · split at h
    · cases h; rfl
    · cases h

/-! ### Auth on well-formed bearer headers -/

/-- `"Bearer <t>".partition(" ")` splits at the first space: the scheme
is "Bearer" and the token is all of `t`, whatever `t` holds. -/
theorem partition_bearer (s : String) :
    pyPartitionSpace ("Bearer " ++ s) = ("Bearer", s) := by
  cases s
  rfl

/-- On a header `Bearer <t>` with `t` nonempty, the gate's verdict is
the table lookup alone. -/
theorem get_api_key_bearer (keys : List APIKey) (t : String) (h : t ≠ "") :
    get_api_key keys ("Bearer " ++ t) =
      match keys.find? (fun k => k.key = t) with
      | none => .error unauthorizedKey
      | some k => .ok k := by
  unfold get_api_key
  rw [partition_bearer]
  have h1 : pyLower "Bearer" = "bearer" := rfl
  simp [h1, h]

/-! ### The claims -/

/-- C3: on a network where every fetch fails, `fetch_rsi_profile`
returns the all-empty result for every handle and never raises; but the
consequent of the claim fails on the code: an authorized
`POST /reportKill` against such a network does not return success —
the `KillEventModel(victim_ship=...)` constructor raises `TypeError`,
the handler answers 500, and no row is persisted. -/
theorem scrape_failure_empty_write_still_500 :
    (∀ handle, fetch_rsi_profile netFail handle = emptyProfile) ∧
    report_kill netFail true db0 "Bearer secret" evtHan =
      (db0, .error killCtorError) ∧
    (report_kill netFail true db0 "Bearer secret" evtHan).1.kills = [] := by
  exact ⟨fun handle => rfl, rfl, rfl⟩

/-- C4: whenever the auth gate accepts a write request, the store
insert fails (today: on the model constructor), the failure is
surfaced as a 500 server error, and the database state — in
particular both event tables — is exactly the state before the
request. -/
theorem store_failure_rolled_back (net : Net) (fi : String → Datetime)
    (c : Bool) (db : DBState) (a : String) (ke : KillEvent)
    (de : DeathEvent) (k : APIKey)
    (h : get_api_key db.api_keys a = .ok k) :
    ((report_kill net c db a ke).1 = db ∧
      ∃ e, (report_kill net c db a ke).2 = .error e ∧ e.status = 500) ∧
    ((report_death net fi c db a de).1 = db ∧
      ∃ e, (report_death net fi c db a de).2 = .error e ∧ e.status = 500) :=
  ⟨⟨report_kill_fst net c db a ke,
    ⟨killCtorError, report_kill_snd net c db a ke k h, rfl⟩⟩,
   ⟨report_death_fst net fi c db a de,
    ⟨internalServerError, report_death_snd net fi c db a de k h, rfl⟩⟩⟩

/-- Witness for C4 at a concrete store, header and bodies. -/
theorem store_failure_rolled_back_witness :
    ((report_kill netFail true db0 "Bearer secret" evtHan).1 = db0 ∧
      ∃ e, (report_kill netFail true db0 "Bearer secret" evtHan).2 =
        .error e ∧ e.status = 500) ∧
    ((report_death netFail fromiso0 true db0 "Bearer secret" dEvtT1).1 = db0 ∧
      ∃ e, (report_death netFail fromiso0 true db0 "Bearer secret" dEvtT1).2 =
        .error e ∧ e.status = 500) :=
  store_failure_rolled_back netFail fromiso0 true db0 "Bearer secret"
    evtHan dEvtT1 key0 rfl

/-- C5 (failing evaluation): submitting kills A, B, C in sequence and
deaths with timestamps T2, T1, T3 — all authorized — leaves both
event tables empty, because every insert dies on the model
constructor's `victim_ship` `TypeError`; the subsequent listings
return `[]`, not the claimed orders A, B, C and T1, T2, T3. -/
theorem ordering_scenario_broken :
    runOps db0
      [.reportKill netFail true "Bearer secret" evtA,
       .reportKill netFail true "Bearer secret" evtB,
       .reportKill netFail true "Bearer secret" evtC,
       .reportDeath netFail fromiso0 true "Bearer secret" dEvtT2,
       .reportDeath netFail fromiso0 true "Bearer secret" dEvtT1,
       .reportDeath netFail fromiso0 true "Bearer secret" dEvtT3] = db0 ∧
    (report_kill netFail true db0 "Bearer secret" evtA).2 =
      .error killCtorError ∧
    (report_death netFail fromiso0 true db0 "Bearer secret" dEvtT2).2 =
      .error internalServerError ∧
    list_kills iso0
      (runOps db0
        [.reportKill netFail true "Bearer secret" evtA,
         .reportKill netFail true "Bearer secret" evtB,
         .reportKill netFail true "Bearer secret" evtC]) = .ok [] ∧
    list_deaths iso0
      (runOps db0
        [.reportDeath netFail fromiso0 true "Bearer secret" dEvtT2,
         .reportDeath netFail fromiso0 true "Bearer secret" dEvtT1,
         .reportDeath netFail fromiso0 true "Bearer secret" dEvtT3])
      "Bearer secret" = .ok [] := by
  refine ⟨rfl, rfl, rfl, ?_, ?_⟩
  · exact list_kills_empty iso0 _ (by rw [runOps_kills]; rfl)
  · have hdb : runOps db0
        [.reportDeath netFail fromiso0 true "Bearer secret" dEvtT2,
         .reportDeath netFail fromiso0 true "Bearer secret" dEvtT1,
         .reportDeath netFail fromiso0 true "Bearer secret" dEvtT3] = db0 := rfl
    rw [hdb]
    exact list_deaths_empty iso0 db0 "Bearer secret" key0 rfl rfl

/-- C6 (failing evaluation): the spec's round-trip event, submitted
with a valid key, is not accepted — `POST /reportKill` answers the
constructor 500 — and the subsequent `GET /kills` holds no record of
it (it returns `[]`). -/
theorem round_trip_broken :
    (report_kill netFail true db0 "Bearer secret" evtHan).2 =
      .error killCtorError ∧
    list_kills iso0 (report_kill netFail true db0 "Bearer secret" evtHan).1 =
      .ok [] := by
  refine ⟨rfl, ?_⟩
  rw [report_kill_fst]
  exact list_kills_empty iso0 db0 rfl

/-- C7: a key issued by `POST /keys` validates with
`Authorization: Bearer <token>` after any further sequence of
operations (nothing revokes or expires keys), and a bearer token no
stored key equals is rejected with a 401. -/
theorem issued_key_validates (db : DBState) (discord_id new_key : String)
    (h : new_key ≠ "") :
    (∀ ops, validate_key (runOps (create_key db discord_id new_key).1 ops)
        ("Bearer " ++ new_key) = .ok ⟨"ok"⟩) ∧
    (∀ t, (∀ k ∈ db.api_keys, k.key ≠ t) →
      ∃ e, validate_key db ("Bearer " ++ t) = .error e ∧ e.status = 401) := by
  constructor
  · intro ops
    have hmem : (⟨new_key, discord_id⟩ : APIKey) ∈
        (create_key db discord_id new_key).1.api_keys := by
      simp [create_key]
    have hmem2 := runOps_keys_mono _ ops _ hmem
    have hsome : ((runOps (create_key db discord_id new_key).1 ops).api_keys.find?
        (fun k => k.key = new_key)).isSome :=
      List.find?_isSome.mpr ⟨⟨new_key, discord_id⟩, hmem2, by simp⟩
    obtain ⟨k', hk'⟩ := Option.isSome_iff_exists.mp hsome
    unfold validate_key
    rw [get_api_key_bearer _ _ h, hk']
  · intro t ht
    by_cases h0 : t = ""
    · refine ⟨unauthorizedHeader, ?_, rfl⟩
      subst h0
      unfold validate_key get_api_key
      rw [partition_bearer]
      simp
    · refine ⟨unauthorizedKey, ?_, rfl⟩
      have hnone : db.api_keys.find? (fun k => k.key = t) = none :=
        List.find?_eq_none.mpr (fun k hk => by simpa using ht k hk)
      unfold validate_key
      rw [get_api_key_bearer _ _ h0, hnone]

/-- Witness for C7: a key issued on the empty store validates at once,
and an unknown token is rejected with a 401. -/
theorem issued_key_validates_witness :
    validate_key (runOps (create_key dbEmpty "12345" "tok-1").1 [])
      "Bearer tok-1" = .ok ⟨"ok"⟩ ∧
    ∃ e, validate_key dbEmpty "Bearer unknown" = .error e ∧ e.status = 401 :=
  ⟨(issued_key_validates dbEmpty "12345" "tok-1" (by decide)).1 [],
   (issued_key_validates dbEmpty "12345" "tok-1" (by decide)).2 "unknown"
     (by simp [dbEmpty])⟩

/-- C8: the schema declares the actor, target, timestamp, zone, weapon
and damage-type columns of both event tables NOT NULL and the three
enrichment columns nullable; every value a write handler binds to a
required column is non-null, whatever the request body and scrape
results; and across every sequence of API operations the persisted
event tables trivially keep the invariant (in the current source they
stay empty, since the inserts fail). -/
theorem persisted_event_invariant :
    (∀ c ∈ requiredKillCols, killSchemaNullable.lookup c = some false) ∧
    (∀ c ∈ enrichmentCols, killSchemaNullable.lookup c = some true) ∧
    (∀ event km vm, ∀ c ∈ requiredKillCols,
      ∃ v, (killInsertBindings event km vm).lookup c = some v ∧
        v ≠ ColVal.null) ∧
    (∀ c ∈ requiredDeathCols, deathSchemaNullable.lookup c = some false) ∧
    (∀ c ∈ enrichmentCols, deathSchemaNullable.lookup c = some true) ∧
    (∀ fi evt km, ∀ c ∈ requiredDeathCols,
      ∃ v, (deathInsertBindings fi evt km).lookup c = some v ∧
        v ≠ ColVal.null) ∧
    (∀ ops, (runOps dbEmpty ops).kills = [] ∧
      (runOps dbEmpty ops).deaths = []) := by
  refine ⟨?_, ?_, ?_, ?_, ?_, ?_, ?_⟩
  · intro c hc; fin_cases hc <;> rfl
  · intro c hc; fin_cases hc <;> rfl
  · intro event km vm c hc
    fin_cases hc <;> exact ⟨_, rfl, nofun⟩
  · intro c hc; fin_cases hc <;> rfl
  · intro c hc; fin_cases hc <;> rfl
  · intro fi evt km c hc
    fin_cases hc <;> exact ⟨_, rfl, nofun⟩
  · intro ops
    exact ⟨by rw [runOps_kills]; rfl, by rw [runOps_deaths]; rfl⟩

/-- Witness for C8: the actor column of a concrete kill insert carries
a non-null value. -/
theorem persisted_event_invariant_witness :
    ∃ v, (killInsertBindings evtHan emptyProfile emptyProfile).lookup
      "player" = some v ∧ v ≠ ColVal.null :=
  persisted_event_invariant.2.2.1 evtHan emptyProfile emptyProfile
    "player" (by decide)

/-- C9: the kwargs `report_kill` hands the model constructor take the
avatar from the player's (actor's) scraped profile and the
organization name and URL from the victim's (target's) scraped
profile — but no event is persisted to carry them: the constructor
rejects the kwargs and the handler answers 500 with the state
unchanged. -/
theorem kill_enrichment_cross_sourced :
    (∀ net event,
      (killInsertBindings event (fetch_rsi_profile net event.player)
        (fetch_rsi_profile net event.victim)).lookup "avatar_url" =
        some (ColVal.ofOpt (fetch_rsi_profile net event.player).avatar_url) ∧
      (killInsertBindings event (fetch_rsi_profile net event.player)
        (fetch_rsi_profile net event.victim)).lookup "organization_name" =
        some (ColVal.ofOpt
          (fetch_rsi_profile net event.victim).organization.name) ∧
      (killInsertBindings event (fetch_rsi_profile net event.player)
        (fetch_rsi_profile net event.victim)).lookup "organization_url" =
        some (ColVal.ofOpt
          (fetch_rsi_profile net event.victim).organization.url)) ∧
    (report_kill netFail true db0 "Bearer secret" evtHan).2 =
      .error killCtorError ∧
    (report_kill netFail true db0 "Bearer secret" evtHan).1 = db0 :=
  ⟨fun _ _ => ⟨rfl, rfl, rfl⟩, rfl, rfl⟩

/-- C10: `GET /deaths` runs the auth gate first and forwards its 401
rejection untouched, while `GET /kills` takes no Authorization input
at all and, on every state the API itself can reach, succeeds. -/
theorem list_auth_asymmetry (iso : Datetime → String) :
    (∀ db a e, get_api_key db.api_keys a = .error e →
      list_deaths iso db a = .error e ∧ e.status = 401) ∧
    (∀ ops, list_kills iso (runOps dbEmpty ops) = .ok []) := by
  constructor
  · intro db a e h
    refine ⟨?_, get_api_key_error_status db.api_keys a e h⟩
    unfold list_deaths
    rw [h]
  · intro ops
    exact list_kills_empty iso _ (by rw [runOps_kills]; rfl)

/-- Witness for C10: a garbage header is rejected by `GET /deaths`
with a 401, while `GET /kills` succeeds on a reachable state. -/
theorem list_auth_asymmetry_witness :
    (list_deaths iso0 dbEmpty "garbage" = .error unauthorizedHeader ∧
      unauthorizedHeader.status = 401) ∧
    list_kills iso0 (runOps dbEmpty [.createKey "1" "k1"]) = .ok [] :=
  ⟨(list_auth_asymmetry iso0).1 dbEmpty "garbage" unauthorizedHeader rfl,
   (list_auth_asymmetry iso0).2 [.createKey "1" "k1"]⟩

end KillTracker
